import Mathlib

/-!
Verification development for the context-selection and conversation-assembly
subsystem of the Writingway authoring tool.

The Lean definitions below are a shallow embedding of the Python source:

* `src/context_panel.py` — `ContextPanel` with `build_project_tree`,
  `build_compendium_tree`, `propagate_check_state`,
  `update_parent_check_state`, `get_selected_context_text`,
  `_traverse_project_item`;
* `src/workshop.py` — `get_compendium_data`, `get_compendium_text`,
  `ExtendedContextDialog` (`build_compendium_tree`, `handle_item_changed`,
  `update_parent`, `get_selected_contexts`) and `WorkshopWindow.send_message`;
* `src/project_window_core.py` — the empty-input guard of
  `ProjectWindow.send_prompt`.

Qt semantics that the embedding relies on (Qt 5 `QTreeWidgetItem`):
`setCheckState` stores the new value and emits `itemChanged` synchronously,
but only when the stored value actually changes (`QTreeWidgetItem::setData`
returns early on an unchanged value); the connected slots therefore run
re-entrantly, nested inside the `setCheckState` call that triggered them.
The check-state cascade is modelled with explicit fuel so that every
function is total; `none` means the fuel ran out (never happens at the
concrete inputs used below).
-/

/-- Qt check states: `Qt.Unchecked`, `Qt.PartiallyChecked`, `Qt.Checked`.
`halfChecked` stands for `Qt.PartiallyChecked`. -/
inductive CheckState where
  | unchecked
  | halfChecked
  | checked
deriving DecidableEq, Repr

/-- Static shape of a `QTreeWidget`: nodes are numbered, each node has an
optional parent, an ordered child list, and an `ItemIsUserCheckable` flag. -/
structure TreeShape where
  parent : Nat → Option Nat
  childrenOf : Nat → List Nat
  checkable : Nat → Bool

/-- Assignment of a check state to every node (items whose check state was
never set report `Qt.Unchecked`, which is what `checkState(0)` returns for
an item with no `CheckStateRole` datum). -/
def StateMap : Type := Nat → CheckState

/-- Overwrite the stored check state of one node. -/
def writeState (sigma : StateMap) (i : Nat) (s : CheckState) : StateMap :=
  fun j => if j = i then s else sigma j

namespace ContextPanel

/-! `ContextPanel` cascade (`src/context_panel.py`, lines 81-103).
`setCS` is `QTreeWidgetItem.setCheckState` with the panel's `itemChanged`
slot (`propagate_check_state`) connected; `onChanged` is
`propagate_check_state`; `forceChildren` is its loop over the children;
`updateParent` is `update_parent_check_state`. -/

mutual

/-- `QTreeWidgetItem.setCheckState(0, s)`: no-op when the value is
unchanged, otherwise store and synchronously run `propagate_check_state`. -/
def setCS (sh : TreeShape) : Nat → StateMap → Nat → CheckState → Option StateMap
  | 0, _, _, _ => none
  | f + 1, sigma, i, s =>
      if sigma i = s then some sigma
      else onChanged sh f (writeState sigma i s) i

/-- `ContextPanel.propagate_check_state(item, column)`: if the item has
children, copy the item's state (read once, before the loop) onto every
user-checkable child, then run `update_parent_check_state(item)`. -/
def onChanged (sh : TreeShape) : Nat → StateMap → Nat → Option StateMap
  | 0, _, _ => none
  | f + 1, sigma, i => do
      let sigma1 ←
        if (sh.childrenOf i).length > 0 then
          forceChildren sh f sigma (sigma i) (sh.childrenOf i)
        else
          pure sigma
      updateParent sh f sigma1 i

/-- The child loop of `propagate_check_state`: sequentially
`child.setCheckState(0, state)` for every user-checkable child. -/
def forceChildren (sh : TreeShape) : Nat → StateMap → CheckState → List Nat → Option StateMap
  | 0, _, _, _ => none
  | _ + 1, sigma, _, [] => some sigma
  | f + 1, sigma, s, c :: cs => do
      let sigma1 ← if sh.checkable c then setCS sh f sigma c s else pure sigma
      forceChildren sh f sigma1 s cs

/-- `ContextPanel.update_parent_check_state(item)`: stop at a missing or
non-checkable parent; otherwise count the parent's children whose state is
`Qt.Checked` (all children, checkable or not), set the parent to Checked
when all are, PartiallyChecked when some are, Unchecked when none are, and
recurse upward.  Note the count ignores `PartiallyChecked` children. -/
def updateParent (sh : TreeShape) : Nat → StateMap → Nat → Option StateMap
  | 0, _, _ => none
  | f + 1, sigma, i =>
      match sh.parent i with
      | none => some sigma
      | some p =>
          if sh.checkable p then
            let cs := sh.childrenOf p
            let checked := (cs.filter (fun c => sigma c == CheckState.checked)).length
            let tgt :=
              if checked = cs.length then CheckState.checked
              else if checked > 0 then CheckState.halfChecked
              else CheckState.unchecked
            do
              let sigma1 ← setCS sh f sigma p tgt
              updateParent sh f sigma1 p
          else
            some sigma

end

end ContextPanel

namespace Workshop

/-! `ExtendedContextDialog` cascade (`src/workshop.py`, lines 114-141).
`onChanged` is `handle_item_changed`; `updateParent` is `update_parent`. -/

mutual

/-- `QTreeWidgetItem.setCheckState(0, s)` with the dialog's `itemChanged`
slot (`handle_item_changed`) connected. -/
def setCS (sh : TreeShape) : Nat → StateMap → Nat → CheckState → Option StateMap
  | 0, _, _, _ => none
  | f + 1, sigma, i, s =>
      if sigma i = s then some sigma
      else onChanged sh f (writeState sigma i s) i

/-- `ExtendedContextDialog.handle_item_changed(item, column)`: only for
user-checkable items; copy the item's state (read once) onto every
user-checkable child, then run `update_parent(item)`. -/
def onChanged (sh : TreeShape) : Nat → StateMap → Nat → Option StateMap
  | 0, _, _ => none
  | f + 1, sigma, i =>
      if sh.checkable i then do
        let sigma1 ← forceChildren sh f sigma (sigma i) (sh.childrenOf i)
        updateParent sh f sigma1 i
      else
        some sigma

/-- The child loop of `handle_item_changed`. -/
def forceChildren (sh : TreeShape) : Nat → StateMap → CheckState → List Nat → Option StateMap
  | 0, _, _, _ => none
  | _ + 1, sigma, _, [] => some sigma
  | f + 1, sigma, s, c :: cs => do
      let sigma1 ← if sh.checkable c then setCS sh f sigma c s else pure sigma
      forceChildren sh f sigma1 s cs

/-- `ExtendedContextDialog.update_parent(item)`: stop at a missing or
non-checkable parent; otherwise count Checked children and record whether
any child is PartiallyChecked, then set the parent to Checked when all
children are Checked, PartiallyChecked when some child is Checked or some
child is PartiallyChecked, Unchecked otherwise, and recurse upward. -/
def updateParent (sh : TreeShape) : Nat → StateMap → Nat → Option StateMap
  | 0, _, _ => none
  | f + 1, sigma, i =>
      match sh.parent i with
      | none => some sigma
      | some p =>
          if sh.checkable p then
            let cs := sh.childrenOf p
            let checked := (cs.filter (fun c => sigma c == CheckState.checked)).length
            let anyHalf := cs.any (fun c => sigma c == CheckState.halfChecked)
            let tgt :=
              if checked = cs.length then CheckState.checked
              else if checked > 0 || anyHalf then CheckState.halfChecked
              else CheckState.unchecked
            do
              let sigma1 ← setCS sh f sigma p tgt
              updateParent sh f sigma1 p
          else
            some sigma

end

end Workshop

/-- The aggregation rule of spec section 4.1, stated on the list of states of
a node's immediate checkable children: Checked iff all are Checked;
Unchecked iff none is Checked and none is Partial; Partial otherwise. -/
def specThreeWayRule (cs : List CheckState) : CheckState :=
  if cs.all (fun c => c == CheckState.checked) then CheckState.checked
  else if cs.all (fun c => c != CheckState.checked && c != CheckState.halfChecked) then
    CheckState.unchecked
  else CheckState.halfChecked

/-- Concrete tree shape shared by both cascade runs: node 0 is an act header
(not user-checkable), node 1 a chapter (checkable), nodes 2 and 3 its two
scenes (checkable) — exactly what `build_project_tree` produces for one act
with one chapter of two scenes. -/
def chapterShape : TreeShape where
  parent := fun i =>
    if i == 1 then some 0 else if i == 2 || i == 3 then some 1 else none
  childrenOf := fun i =>
    if i == 0 then [1] else if i == 1 then [2, 3] else []
  checkable := fun i => i == 1 || i == 2 || i == 3

/-- All nodes start `Qt.Unchecked`, as built by `build_project_tree`. -/
def allUncheckedMap : StateMap := fun _ => CheckState.unchecked

/-- States of (chapter, scene 1, scene 2) after the user checks scene 1 in
the `ContextPanel` tree, once the re-entrant `itemChanged` cascade settles. -/
def cpRunResult : Option (CheckState × CheckState × CheckState) :=
  (ContextPanel.setCS chapterShape 64 allUncheckedMap 2 CheckState.checked).map
    (fun sigma => (sigma 1, sigma 2, sigma 3))

/-- States of (chapter, scene 1, scene 2) after the user checks scene 1 in
the `ExtendedContextDialog` tree, once the cascade settles. -/
def wsRunResult : Option (CheckState × CheckState × CheckState) :=
  (Workshop.setCS chapterShape 64 allUncheckedMap 2 CheckState.checked).map
    (fun sigma => (sigma 1, sigma 2, sigma 3))

/-! ## Tree-widget data model for the build / render functions -/

/-- The subset of `Qt.ItemFlags` the source manipulates.  A fresh
`QTreeWidgetItem` has `Qt.ItemIsEnabled` and `Qt.ItemIsUserCheckable` set
(among others), so the default is `(true, true)`. -/
structure ItemFlags where
  enabled : Bool
  userCheckable : Bool
deriving DecidableEq, Repr

/-- Default flags of a freshly constructed `QTreeWidgetItem`. -/
def defaultItemFlags : ItemFlags := { enabled := true, userCheckable := true }

/-- The `Qt.UserRole` datum the source attaches with `setData`:
none for act and category headers (and for workshop entry items),
`{"type": "chapter", "data": chapter}` (its summary is what rendering
reads), `{"type": "scene", "data": scene}` (its content), or
`{"type": "compendium", "category": cat, "label": entry}`. -/
inductive NodeData where
  | nodata
  | chapterData (summary : Option String)
  | sceneData (content : Option String)
  | compendiumData (category : String) (label : String)
deriving DecidableEq, Repr

/-- A `QTreeWidgetItem` as the source uses it: display text (column 0),
flags, check state, `UserRole` datum, ordered children. -/
inductive TWItem where
  | mk (label : String) (flags : ItemFlags) (state : CheckState)
       (dat : NodeData) (children : List TWItem)

def TWItem.label : TWItem → String
  | .mk l _ _ _ _ => l

def TWItem.flags : TWItem → ItemFlags
  | .mk _ f _ _ _ => f

def TWItem.state : TWItem → CheckState
  | .mk _ _ s _ _ => s

def TWItem.dat : TWItem → NodeData
  | .mk _ _ _ d _ => d

def TWItem.children : TWItem → List TWItem
  | .mk _ _ _ _ c => c

/-- A scene dict from the project structure: `name` and `content` keys may
be absent (`dict.get` defaults are applied where the source applies them). -/
structure SceneD where
  name : Option String
  content : Option String

/-- A chapter dict: `name`, `summary`, `scenes`. -/
structure ChapterD where
  name : Option String
  summary : Option String
  scenes : List SceneD

/-- An act dict: `name`, `chapters`. -/
structure ActD where
  name : Option String
  chapters : List ChapterD

/-- The project structure dict: `{"acts": [...]}`. -/
structure ProjectStructure where
  acts : List ActD

/-- A parsed `compendium.json`: `{"categories": {cat: {entry: text}}}`,
dicts modelled as association lists in key order. -/
structure CompendiumData where
  categories : List (String × List (String × String))

/-- Outcome of opening and `json.load`-ing `compendium.json`: parsed data,
file missing, or unparsable (`json.load` raised). -/
inductive LoadResult where
  | ok (d : CompendiumData)
  | missing
  | corrupt

/-- Insert a string into a sorted list, keeping order. -/
def insertSorted (x : String) : List String → List String
  | [] => [x]
  | y :: ys => if x ≤ y then x :: y :: ys else y :: insertSorted x ys

/-- Python's `sorted` on a list of strings (insertion sort; stable,
ascending). -/
def sortStrings (l : List String) : List String :=
  l.foldr insertSorted []

namespace Workshop

/-- `get_compendium_data()` (`src/workshop.py`, lines 37-45): return the
parsed file when it exists and parses; on a missing file or a parse error
return `{"categories": {}}`. -/
def get_compendium_data : LoadResult → CompendiumData
  | .ok d => d
  | .missing => { categories := [] }
  | .corrupt => { categories := [] }

/-- The double dict lookup inside `get_compendium_text`:
`data.get("categories", {}).get(category, {}).get(entry, ...)` without the
default string. -/
def lookupEntry (r : LoadResult) (category entry : String) : Option String :=
  (((get_compendium_data r).categories.lookup category).getD []).lookup entry

/-- `get_compendium_text(category, entry)` (`src/workshop.py`, lines
47-50): the stored text, or the placeholder when category or entry is
absent. -/
def get_compendium_text (r : LoadResult) (category entry : String) : String :=
  match lookupEntry r category entry with
  | some t => t
  | none => "[No content for " ++ entry ++ " in category " ++ category ++ "]"

end Workshop

namespace ContextPanel

/-- `ContextPanel.build_project_tree` (`src/context_panel.py`, lines
43-59): acts become non-user-checkable headers with no `UserRole` datum;
chapters and scenes get the user-checkable flag added, state
`Qt.Unchecked`, and their dict stored under `UserRole`.  Act headers never
receive a check state; `checkState(0)` on them reads as `Qt.Unchecked`. -/
def buildSceneItem (scene : SceneD) : TWItem :=
  .mk (scene.name.getD "Unnamed Scene")
      { defaultItemFlags with userCheckable := true }
      CheckState.unchecked (.sceneData scene.content) []

def buildChapterItem (chapter : ChapterD) : TWItem :=
  .mk (chapter.name.getD "Unnamed Chapter")
      { defaultItemFlags with userCheckable := true }
      CheckState.unchecked (.chapterData chapter.summary)
      (chapter.scenes.map buildSceneItem)

def buildActItem (act : ActD) : TWItem :=
  .mk (act.name.getD "Unnamed Act")
      { defaultItemFlags with userCheckable := false }
      CheckState.unchecked .nodata
      (act.chapters.map buildChapterItem)

def build_project_tree (ps : ProjectStructure) : List TWItem :=
  ps.acts.map buildActItem

/-- `ContextPanel.build_compendium_tree` (`src/context_panel.py`, lines
61-79): the panel opens `compendium.json` itself; on any exception `data`
becomes `{}` so `data.get("categories", {})` is empty.  Category headers
have the user-checkable flag removed; entries get it added, state
`Qt.Unchecked`, and a compendium datum; entry rows are sorted by name. -/
def build_compendium_tree (r : LoadResult) : List TWItem :=
  let data : CompendiumData :=
    match r with
    | .ok d => d
    | _ => { categories := [] }
  data.categories.map (fun ce =>
    .mk ce.1 { defaultItemFlags with userCheckable := false }
        CheckState.unchecked .nodata
        ((sortStrings (ce.2.map Prod.fst)).map (fun entry =>
          .mk entry { defaultItemFlags with userCheckable := true }
              CheckState.unchecked (.compendiumData ce.1 entry) [])))

end ContextPanel

namespace Workshop

/-- `ExtendedContextDialog.build_compendium_tree` (`src/workshop.py`,
lines 101-112): categories from `get_compendium_data()`; category headers
have the user-checkable flag removed; entry items get flags
`Qt.ItemIsEnabled | Qt.ItemIsUserCheckable` exactly, state `Qt.Unchecked`,
and no `UserRole` datum; entries sorted by name. -/
def build_compendium_tree (r : LoadResult) : List TWItem :=
  (get_compendium_data r).categories.map (fun ce =>
    .mk ce.1 { defaultItemFlags with userCheckable := false }
        CheckState.unchecked .nodata
        ((sortStrings (ce.2.map Prod.fst)).map (fun entry =>
          .mk entry { enabled := true, userCheckable := true }
              CheckState.unchecked .nodata [])))

end Workshop

namespace ContextPanel

mutual

/-- `ContextPanel._traverse_project_item(item, texts)` (`src/context_panel.py`,
lines 123-137), returning the texts it appends: a childless item whose
state is `Qt.Checked` emits its chapter summary or scene content block
(nothing when the `UserRole` datum is absent, the type is neither, or the
text is empty); any other item recurses into its children in order. -/
def traverseProjectItem : TWItem → List String
  | .mk label _ state dat children =>
      if children.length == 0 && state == CheckState.checked then
        match dat with
        | .chapterData summary =>
            let s := summary.getD ""
            if s != "" then ["[Chapter Summary - " ++ label ++ "]:\n" ++ s] else []
        | .sceneData content =>
            let s := content.getD ""
            if s != "" then ["[Scene Content - " ++ label ++ "]:\n" ++ s] else []
        | _ => []
      else
        traverseProjectChildren children

/-- The recursion of `_traverse_project_item` over a child list (also the
loop over the project tree's top-level items in
`get_selected_context_text`). -/
def traverseProjectChildren : List TWItem → List String
  | [] => []
  | c :: cs => traverseProjectItem c ++ traverseProjectChildren cs

end

/-- The compendium half of `get_selected_context_text` (lines 111-118):
for every top-level category item, every checked entry child contributes
`get_compendium_text(category, entry.text(0))`. -/
def collectCompendiumEntry (r : LoadResult) (category : String) : List TWItem → List String
  | [] => []
  | e :: es =>
      (if e.state == CheckState.checked
       then [Workshop.get_compendium_text r category e.label]
       else []) ++ collectCompendiumEntry r category es

def collectCompendiumTexts (r : LoadResult) : List TWItem → List String
  | [] => []
  | catItem :: rest =>
      collectCompendiumEntry r catItem.label catItem.children
        ++ collectCompendiumTexts r rest

/-- `ContextPanel.get_selected_context_text()` (`src/context_panel.py`,
lines 105-121): project-tree texts first, then compendium texts; empty
result when nothing was collected, otherwise the header plus the blocks
joined with blank lines.  `r` is the current content of
`compendium.json`, re-read by `get_compendium_text` at render time. -/
def get_selected_context_text (r : LoadResult) (projectItems compendiumItems : List TWItem) : String :=
  let texts := traverseProjectChildren projectItems ++ collectCompendiumTexts r compendiumItems
  if texts != [] then "Additional Context:\n" ++ String.intercalate "\n\n" texts
  else ""

end ContextPanel

namespace Workshop

mutual

/-- The `traverse` closure of `ExtendedContextDialog.get_selected_contexts`
(`src/workshop.py`, lines 145-150): a checked childless item contributes
its display text; any other item recurses into its children. -/
def gscTraverse : TWItem → List String
  | .mk label _ state _ children =>
      if children.length == 0 && state == CheckState.checked then [label]
      else gscChildren children

def gscChildren : List TWItem → List String
  | [] => []
  | c :: cs => gscTraverse c ++ gscChildren cs

end

/-- The compendium half of `get_selected_contexts` (lines 154-160):
checked entries contribute `"category: entry"`. -/
def gscCompendiumEntry (category : String) : List TWItem → List String
  | [] => []
  | e :: es =>
      (if e.state == CheckState.checked then [category ++ ": " ++ e.label] else [])
        ++ gscCompendiumEntry category es

def gscCompendium : List TWItem → List String
  | [] => []
  | catItem :: rest =>
      gscCompendiumEntry catItem.label catItem.children ++ gscCompendium rest

/-- `ExtendedContextDialog.get_selected_contexts()` (`src/workshop.py`,
lines 143-161). -/
def get_selected_contexts (projectItems compendiumItems : List TWItem) : List String :=
  gscChildren projectItems ++ gscCompendium compendiumItems

end Workshop

/-- Python's `str.strip()` with no argument: remove leading and trailing
whitespace.  Implemented over the character list so that it evaluates
inside the kernel. -/
def pyStrip (s : String) : String :=
  String.mk
    (((s.data.dropWhile Char.isWhitespace).reverse.dropWhile
        Char.isWhitespace).reverse)

namespace Workshop

/-! ## `WorkshopWindow.send_message` (`src/workshop.py`, lines 269-318) -/

/-- One message of the conversation payload: `{"role": ..., "content": ...}`. -/
structure ChatMessage where
  role : String
  content : String
deriving DecidableEq, Repr

/-- `TOKEN_LIMIT` (`src/workshop.py`, line 15). -/
def TOKEN_LIMIT : Nat := 2000

/-- Lines 274-278 of `send_message`: when the context panel is visible and
`get_selected_contexts()` is non-empty, append the selections to the user
message; otherwise leave the message unchanged. -/
def contextAugmented (visible : Bool) (projectItems compendiumItems : List TWItem)
    (m : String) : String :=
  if visible then
    let contexts := get_selected_contexts projectItems compendiumItems
    if contexts != [] then m ++ "\nContext:\n" ++ String.intercalate "\n" contexts
    else m
  else m

/-- Lines 279-281 of `send_message`: append the compendium references found
in the augmented message, when any.  `refsOf` abstracts
`parse_compendium_references`, which scans the current `compendium.json`. -/
def refsAugmented (refsOf : String → List String) (m : String) : String :=
  let refs := refsOf m
  if refs != [] then
    m ++ "\n[Compendium references: " ++ String.intercalate ", " refs ++ "]"
  else m

/-- Lines 288-296 of `send_message`: start from a copy of
`self.conversation_history`; when it is empty and a workshop prompt config
is selected, append a system message with the config's text
(`config.get("text", "")`); then append the user message.
`cfgText` is the selected config's text field, `none` when no workshop
prompt was selected. -/
def buildConversationPayload (history : List ChatMessage) (cfgText : Option String)
    (augmented : String) : List ChatMessage :=
  let payload := history
  let payload :=
    match cfgText with
    | some t => if payload.isEmpty then payload ++ [{ role := "system", content := t }] else payload
    | none => payload
  payload ++ [{ role := "user", content := augmented }]

/-- Lines 307-310 of `send_message`: when the estimated token count of the
payload exceeds `TOKEN_LIMIT`, replace it by exactly
`[conversation_payload[0], {"role": "system", "content": summary}]`.
`est` and `summ` model the external `estimate_conversation_tokens` and
`summarize_conversation` collaborators.  `conversation_payload[0]` is
modelled with `headD` (the payload is never empty at this point in
`send_message`, since a user message was just appended). -/
def summarizePayload (est : List ChatMessage → Nat) (summ : List ChatMessage → String)
    (payload : List ChatMessage) : List ChatMessage :=
  if est payload > TOKEN_LIMIT then
    [payload.headD { role := "", content := "" },
     { role := "system", content := summ payload }]
  else payload

/-- Result of one `send_message` call: whether a request was issued to the
LLM transport, whether a warning dialog was shown (`send_message` contains
no `QMessageBox` call, so this is always `false`), the payload sent, and
the new `self.conversation_history`. -/
structure SendMessageResult where
  issuedRequest : Bool
  warned : Bool
  payload : List ChatMessage
  history : List ChatMessage
deriving DecidableEq, Repr

/-- `WorkshopWindow.send_message` (`src/workshop.py`, lines 269-318),
abstracting the UI widgets: `input` is `self.chat_input.toPlainText()`,
`visible` is `self.context_panel.isVisible()`, the two item lists are the
dialog's trees, `respond` models `send_prompt_to_llm`.  An empty stripped
input returns immediately (no warning, nothing sent, history untouched);
otherwise the augmented message is built, the payload assembled and
possibly summarized, the request sent, and the history replaced by the
payload plus the assistant's response. -/
def send_message (input : String) (history : List ChatMessage) (visible : Bool)
    (projectItems compendiumItems : List TWItem)
    (refsOf : String → List String) (cfgText : Option String)
    (est : List ChatMessage → Nat) (summ : List ChatMessage → String)
    (respond : List ChatMessage → String) : SendMessageResult :=
  let user_message := pyStrip input
  if user_message = "" then
    { issuedRequest := false, warned := false, payload := [], history := history }
  else
    let augmented := refsAugmented refsOf
      (contextAugmented visible projectItems compendiumItems user_message)
    let payload := buildConversationPayload history cfgText augmented
    let payload := summarizePayload est summ payload
    let response := respond payload
    { issuedRequest := true, warned := false, payload := payload,
      history := payload ++ [{ role := "assistant", content := response }] }

end Workshop

namespace ProjectWindow

/-- Outcome of the guard at the top of `ProjectWindow.send_prompt`
(`src/project_window_core.py`, lines 460-464): whether
`QMessageBox.warning` was shown and whether execution proceeds to the LLM
call (`prompt_handler.send_final_prompt`). -/
structure SendPromptOutcome where
  warned : Bool
  requestIssued : Bool
deriving DecidableEq, Repr

/-- `ProjectWindow.send_prompt` empty-input guard: `action_beats` is the
stripped prompt input; when empty, a warning dialog is shown and the
method returns before any request; otherwise it proceeds to issue the
request. -/
def send_prompt_guard (input : String) : SendPromptOutcome :=
  if pyStrip input = "" then { warned := true, requestIssued := false }
  else { warned := false, requestIssued := true }

end ProjectWindow


/-- Placeholder item used as the default of `headD`. -/
def emptyTWItem : TWItem := .mk "" defaultItemFlags CheckState.unchecked .nodata []

/-- A concrete parsed compendium store with one category and one entry. -/
def compStore0 : LoadResult :=
  .ok { categories := [("People", [("Alice", "Alice is tall.")])] }

/-- Claim C1 (code bug): the claim says that after every single state
mutation, once propagation settles, every non-leaf checkable node's state
equals the three-way aggregation rule over its immediate checkable
children.  Evaluating the embedded `ContextPanel` cascade at the failing
input (one act, one chapter with two scenes, everything unchecked, the
user checks scene 1) settles at chapter = Unchecked, scene 1 = Unchecked,
scene 2 = PartiallyChecked, while the rule applied to the chapter's
checkable children (Unchecked, PartiallyChecked) yields PartiallyChecked,
not Unchecked. -/
theorem c1_contextpanel_violates_aggregation :
    cpRunResult = some (CheckState.unchecked, CheckState.unchecked, CheckState.halfChecked)
    ∧ specThreeWayRule [CheckState.unchecked, CheckState.halfChecked] ≠ CheckState.unchecked := by
  decide

/-- Claim C2 (code bug): the claim says downward propagation only ever
forces Checked or Unchecked onto checkable descendants, never Partial.
Evaluating the embedded `ExtendedContextDialog` cascade at the failing
input (one act, one chapter with two scenes, everything unchecked, the
user checks scene 1) ends with both scenes PartiallyChecked:
`update_parent` sets the chapter to PartiallyChecked, which re-fires
`handle_item_changed`, whose child loop copies PartiallyChecked onto both
scenes. -/
theorem c2_workshop_forces_halfchecked_on_children :
    wsRunResult = some (CheckState.halfChecked, CheckState.halfChecked, CheckState.halfChecked) := by
  decide

/-- The conversation payload built by `send_message` from an empty
history with no workshop prompt selected: a single user message, no
leading system message. -/
def c3Payload : List Workshop.ChatMessage :=
  Workshop.buildConversationPayload [] none "hello"

/-- Claim C3 counterexample: with no leading system message (empty
history, no workshop prompt config) and an estimator returning 2500 >
2000, `send_message` replaces the payload by exactly two entries whose
first is the original user message — not by the single summary entry the
claim requires for that case. -/
theorem c3_counterexample :
    Workshop.summarizePayload (fun _ => 2500) (fun _ => "summary text") c3Payload
      = [{ role := "user", content := "hello" }, { role := "system", content := "summary text" }]
    ∧ (2500 : Nat) > Workshop.TOKEN_LIMIT
    ∧ (Workshop.summarizePayload (fun _ => 2500) (fun _ => "summary text") c3Payload).length ≠ 1 := by
  decide

/-- Claim C4 counterexample: both compendium tree builders remove the
`Qt.ItemIsUserCheckable` flag from category header items, so a concrete
store with one category yields a non-user-checkable category node,
contradicting the claim that compendium category headers ARE
user-checkable. -/
theorem c4_counterexample :
    ((ContextPanel.build_compendium_tree compStore0).headD emptyTWItem).flags.userCheckable = false
    ∧ ((Workshop.build_compendium_tree compStore0).headD emptyTWItem).flags.userCheckable = false := by
  decide

/-- Claim C4 (amended): for every project structure and compendium
store, act headers and compendium category headers are NOT user-checkable
in all three builders, while chapter, scene and compendium entry nodes are
user-checkable — checkability is symmetric across the two trees, with all
container headers non-interactive. -/
theorem c4_amended (ps : ProjectStructure) (r : LoadResult) :
    ((ContextPanel.build_project_tree ps).all (fun a =>
        !a.flags.userCheckable
          && a.children.all (fun c => c.flags.userCheckable
          && c.children.all (fun s => s.flags.userCheckable)))) = true
    ∧ ((ContextPanel.build_compendium_tree r).all (fun cat =>
        !cat.flags.userCheckable && cat.children.all (fun e => e.flags.userCheckable))) = true
    ∧ ((Workshop.build_compendium_tree r).all (fun cat =>
        !cat.flags.userCheckable && cat.children.all (fun e => e.flags.userCheckable))) = true := by
  refine ⟨?_, ?_, ?_⟩
  · simp [ContextPanel.build_project_tree, ContextPanel.buildActItem,
      ContextPanel.buildChapterItem, ContextPanel.buildSceneItem,
      List.all_eq_true, TWItem.flags, TWItem.children, defaultItemFlags]
  · cases r with
    | ok d =>
        simp [ContextPanel.build_compendium_tree, List.all_eq_true,
          TWItem.flags, TWItem.children, defaultItemFlags]
        rintro x a b hmem rfl
        refine ⟨rfl, ?_⟩
        intro e he
        simp only [TWItem.children, List.mem_map] at he
        obtain ⟨entry, -, rfl⟩ := he
        rfl
    | missing => rfl
    | corrupt => rfl
  · cases r with
    | ok d =>
        simp [Workshop.build_compendium_tree, Workshop.get_compendium_data,
          List.all_eq_true, TWItem.flags, TWItem.children, defaultItemFlags]
        rintro x a b hmem rfl
        refine ⟨rfl, ?_⟩
        intro e he
        simp only [TWItem.children, List.mem_map] at he
        obtain ⟨entry, -, rfl⟩ := he
        rfl
    | missing => rfl
    | corrupt => rfl

/-- Claim C5 (confirmed): `_traverse_project_item` recurses into any item
that has children, regardless of that item's own check state, emitting no
text of its own (so a checked chapter with scene children never
contributes its summary); a checked childless chapter emits its summary
block exactly when the summary is non-empty; a checked scene emits its
content block exactly when the content is non-empty. -/
theorem c5_render_only_checked_leaves :
    (∀ (l : String) (fl : ItemFlags) (s : CheckState) (d : NodeData)
        (c : TWItem) (cs : List TWItem),
        ContextPanel.traverseProjectItem (.mk l fl s d (c :: cs))
          = ContextPanel.traverseProjectChildren (c :: cs))
    ∧ (∀ (l : String) (fl : ItemFlags) (summary : Option String),
        ContextPanel.traverseProjectItem
            (.mk l fl CheckState.checked (.chapterData summary) [])
          = if summary.getD "" != "" then
              ["[Chapter Summary - " ++ l ++ "]:\n" ++ summary.getD ""]
            else [])
    ∧ (∀ (l : String) (fl : ItemFlags) (content : Option String),
        ContextPanel.traverseProjectItem
            (.mk l fl CheckState.checked (.sceneData content) [])
          = if content.getD "" != "" then
              ["[Scene Content - " ++ l ++ "]:\n" ++ content.getD ""]
            else []) := by
  refine ⟨?_, fun l fl summary => rfl, fun l fl content => rfl⟩
  intro l fl s d c cs
  simp [ContextPanel.traverseProjectItem]

mutual

/-- Every node of the item (itself included) is in state `Qt.Unchecked`. -/
def allUncheckedItem : TWItem → Bool
  | .mk _ _ s _ children => s == CheckState.unchecked && allUncheckedList children

def allUncheckedList : List TWItem → Bool
  | [] => true
  | c :: cs => allUncheckedItem c && allUncheckedList cs

end

mutual

theorem traverse_nil_of_allUnchecked :
    ∀ t : TWItem, allUncheckedItem t = true → ContextPanel.traverseProjectItem t = []
  | .mk l fl s d children, h => by
      simp only [allUncheckedItem, Bool.and_eq_true, beq_iff_eq] at h
      obtain ⟨rfl, hc⟩ := h
      have e : ContextPanel.traverseProjectItem (.mk l fl CheckState.unchecked d children)
          = ContextPanel.traverseProjectChildren children := by
        simp [ContextPanel.traverseProjectItem]
      rw [e]
      exact traverseChildren_nil_of_allUnchecked children hc

theorem traverseChildren_nil_of_allUnchecked :
    ∀ ts : List TWItem, allUncheckedList ts = true →
      ContextPanel.traverseProjectChildren ts = []
  | [], _ => rfl
  | c :: cs, h => by
      simp only [allUncheckedList, Bool.and_eq_true] at h
      obtain ⟨hc, hcs⟩ := h
      simp [ContextPanel.traverseProjectChildren,
        traverse_nil_of_allUnchecked c hc,
        traverseChildren_nil_of_allUnchecked cs hcs]

end

theorem collectEntry_nil_of_allUnchecked (r : LoadResult) (cat : String) :
    ∀ es : List TWItem, allUncheckedList es = true →
      ContextPanel.collectCompendiumEntry r cat es = []
  | [], _ => rfl
  | e :: es, h => by
      simp only [allUncheckedList, Bool.and_eq_true] at h
      obtain ⟨he, hes⟩ := h
      cases e with
      | mk l fl s d ch =>
          simp only [allUncheckedItem, Bool.and_eq_true, beq_iff_eq] at he
          obtain ⟨rfl, -⟩ := he
          simp [ContextPanel.collectCompendiumEntry, TWItem.state,
            collectEntry_nil_of_allUnchecked r cat es hes]

theorem collectTexts_nil_of_allUnchecked (r : LoadResult) :
    ∀ ct : List TWItem, allUncheckedList ct = true →
      ContextPanel.collectCompendiumTexts r ct = []
  | [], _ => rfl
  | catItem :: rest, h => by
      simp only [allUncheckedList, Bool.and_eq_true] at h
      obtain ⟨hcat, hrest⟩ := h
      cases catItem with
      | mk l fl s d ch =>
          simp only [allUncheckedItem, Bool.and_eq_true] at hcat
          obtain ⟨-, hch⟩ := hcat
          simp [ContextPanel.collectCompendiumTexts, TWItem.children, TWItem.label,
            collectEntry_nil_of_allUnchecked r l ch hch,
            collectTexts_nil_of_allUnchecked r rest hrest]

/-- A project tree with exactly one checked node: a scene labelled
"Scene 1" with content "Hello", inside an unchecked chapter and act. -/
def helloForest : List TWItem :=
  [.mk "Act 1" { defaultItemFlags with userCheckable := false }
      CheckState.unchecked .nodata
      [.mk "Chapter 1" { defaultItemFlags with userCheckable := true }
          CheckState.unchecked (.chapterData (some "A summary"))
          [.mk "Scene 1" { defaultItemFlags with userCheckable := true }
              CheckState.checked (.sceneData (some "Hello")) []]]]

/-- The same project tree with every node unchecked. -/
def uncheckedForest : List TWItem :=
  [.mk "Act 1" { defaultItemFlags with userCheckable := false }
      CheckState.unchecked .nodata
      [.mk "Chapter 1" { defaultItemFlags with userCheckable := true }
          CheckState.unchecked (.chapterData (some "A summary"))
          [.mk "Scene 1" { defaultItemFlags with userCheckable := true }
              CheckState.unchecked (.sceneData (some "Hello")) []]]]

/-- Claim C6 (confirmed): `get_selected_context_text` returns the empty
string when no blocks are collected (in particular on an all-unchecked
forest), and otherwise the literal header "Additional Context:" plus a
newline followed by the blocks joined with blank-line separators; for
exactly one checked scene labelled "Scene 1" with content "Hello" the
result is exactly "Additional Context:\n[Scene Content - Scene 1]:\nHello". -/
theorem c6_assembly (r : LoadResult) (pt ct : List TWItem) :
    (ContextPanel.traverseProjectChildren pt ++ ContextPanel.collectCompendiumTexts r ct = [] →
        ContextPanel.get_selected_context_text r pt ct = "")
    ∧ (ContextPanel.traverseProjectChildren pt ++ ContextPanel.collectCompendiumTexts r ct ≠ [] →
        ContextPanel.get_selected_context_text r pt ct
          = "Additional Context:\n" ++ String.intercalate "\n\n"
              (ContextPanel.traverseProjectChildren pt
                ++ ContextPanel.collectCompendiumTexts r ct))
    ∧ (allUncheckedList pt = true → allUncheckedList ct = true →
        ContextPanel.get_selected_context_text r pt ct = "")
    ∧ ContextPanel.get_selected_context_text LoadResult.missing helloForest []
        = "Additional Context:\n[Scene Content - Scene 1]:\nHello" := by
  refine ⟨?_, ?_, ?_, by decide⟩
  · intro h
    simp [ContextPanel.get_selected_context_text, h]
  · intro h
    have hb : (ContextPanel.traverseProjectChildren pt
        ++ ContextPanel.collectCompendiumTexts r ct != []) = true := by
      simpa [bne_iff_ne] using h
    simp [ContextPanel.get_selected_context_text, hb]
  · intro hpt hct
    simp [ContextPanel.get_selected_context_text,
      traverseChildren_nil_of_allUnchecked pt hpt,
      collectTexts_nil_of_allUnchecked r ct hct]

theorem c6_witness :
    ContextPanel.get_selected_context_text LoadResult.missing [] [] = ""
    ∧ ContextPanel.get_selected_context_text LoadResult.missing helloForest []
        = "Additional Context:\n" ++ String.intercalate "\n\n"
            (ContextPanel.traverseProjectChildren helloForest
              ++ ContextPanel.collectCompendiumTexts LoadResult.missing [])
    ∧ ContextPanel.get_selected_context_text LoadResult.missing uncheckedForest [] = "" :=
  ⟨(c6_assembly LoadResult.missing [] []).1 rfl,
   (c6_assembly LoadResult.missing helloForest []).2.1 (by decide),
   (c6_assembly LoadResult.missing uncheckedForest []).2.2.1 (by decide) (by decide)⟩

theorem c3_amended (history : List Workshop.ChatMessage) (cfgText : Option String)
    (aug : String) (est : List Workshop.ChatMessage → Nat)
    (summ : List Workshop.ChatMessage → String)
    (h : est (Workshop.buildConversationPayload history cfgText aug) > Workshop.TOKEN_LIMIT) :
    (Workshop.summarizePayload est summ
        (Workshop.buildConversationPayload history cfgText aug)).length = 2
    ∧ (Workshop.summarizePayload est summ
        (Workshop.buildConversationPayload history cfgText aug)).headD
          { role := "", content := "" }
      = (Workshop.buildConversationPayload history cfgText aug).headD
          { role := "", content := "" }
    ∧ (Workshop.summarizePayload est summ
        (Workshop.buildConversationPayload history cfgText aug)).getLast?
      = some { role := "system",
               content := summ (Workshop.buildConversationPayload history cfgText aug) }
    ∧ (∀ (sysContent : String) (rest : List Workshop.ChatMessage),
        history = { role := "system", content := sysContent } :: rest →
        (Workshop.summarizePayload est summ
            (Workshop.buildConversationPayload history cfgText aug)).headD
          { role := "", content := "" }
        = { role := "system", content := sysContent }) := by
  have e : Workshop.summarizePayload est summ
      (Workshop.buildConversationPayload history cfgText aug)
      = [(Workshop.buildConversationPayload history cfgText aug).headD
           { role := "", content := "" },
         { role := "system",
           content := summ (Workshop.buildConversationPayload history cfgText aug) }] := by
    simp [Workshop.summarizePayload, h]
  refine ⟨by rw [e]; rfl, by rw [e]; rfl, by rw [e]; rfl, ?_⟩
  rintro sysContent rest rfl
  rw [e]
  cases cfgText <;> simp [Workshop.buildConversationPayload]

theorem c3_amended_witness :
    (Workshop.summarizePayload (fun _ => 2500) (fun _ => "SUM")
        (Workshop.buildConversationPayload
          [{ role := "system", content := "S" }] none "hi")).length = 2
    ∧ (Workshop.summarizePayload (fun _ => 2500) (fun _ => "SUM")
        (Workshop.buildConversationPayload
          [{ role := "system", content := "S" }] none "hi")).headD
        { role := "", content := "" }
      = (Workshop.buildConversationPayload
          [{ role := "system", content := "S" }] none "hi").headD
        { role := "", content := "" } :=
  ⟨(c3_amended [{ role := "system", content := "S" }] none "hi"
      (fun _ => 2500) (fun _ => "SUM") (by decide)).1,
   (c3_amended [{ role := "system", content := "S" }] none "hi"
      (fun _ => 2500) (fun _ => "SUM") (by decide)).2.1⟩

/-- Claim C7 (confirmed): for every category and entry name,
`get_compendium_text` returns the entry's stored text when the store has
it, and otherwise exactly the placeholder
"[No content for {entry} in category {category}]". -/
theorem c7_compendium_text_lookup (r : LoadResult) (category entry : String) :
    (∀ t : String, Workshop.lookupEntry r category entry = some t →
        Workshop.get_compendium_text r category entry = t)
    ∧ (Workshop.lookupEntry r category entry = none →
        Workshop.get_compendium_text r category entry
          = "[No content for " ++ entry ++ " in category " ++ category ++ "]") := by
  constructor
  · intro t h
    simp [Workshop.get_compendium_text, h]
  · intro h
    simp [Workshop.get_compendium_text, h]

theorem c7_witness :
    Workshop.get_compendium_text compStore0 "People" "Alice" = "Alice is tall."
    ∧ Workshop.get_compendium_text compStore0 "People" "Bob"
        = "[No content for Bob in category People]" :=
  ⟨(c7_compendium_text_lookup compStore0 "People" "Alice").1 "Alice is tall." (by decide),
   (c7_compendium_text_lookup compStore0 "People" "Bob").2 (by decide)⟩

/-- Claim C8 (confirmed): when `compendium.json` is missing or
unparsable, `get_compendium_data` returns the empty categories mapping and
both compendium tree builders return the empty tree; in the embedding all
three are total functions, matching the source's catch-all exception
handlers that prevent any error from reaching the caller. -/
theorem c8_missing_or_corrupt_degrades (r : LoadResult)
    (h : r = LoadResult.missing ∨ r = LoadResult.corrupt) :
    Workshop.get_compendium_data r = { categories := [] }
    ∧ ContextPanel.build_compendium_tree r = []
    ∧ Workshop.build_compendium_tree r = [] := by
  rcases h with rfl | rfl <;> exact ⟨rfl, rfl, rfl⟩

theorem c8_witness :
    Workshop.get_compendium_data LoadResult.missing = { categories := [] }
    ∧ ContextPanel.build_compendium_tree LoadResult.missing = []
    ∧ Workshop.build_compendium_tree LoadResult.missing = [] :=
  c8_missing_or_corrupt_degrades LoadResult.missing (Or.inl rfl)

/-- Claim C9 counterexample: sending whitespace-only input in the
workshop chat is rejected (no request, history untouched) but WITHOUT any
user-visible warning — `send_message` just returns, falsifying the claim
that every empty send attempt produces a warning. -/
theorem c9_counterexample :
    (Workshop.send_message "   " [] false [] [] (fun _ => []) none
        (fun _ => 0) (fun _ => "") (fun _ => "")).warned = false
    ∧ (Workshop.send_message "   " [] false [] [] (fun _ => []) none
        (fun _ => 0) (fun _ => "") (fun _ => "")).issuedRequest = false := by
  decide

/-- Claim C9 (amended): for every send attempt whose input is empty or
whitespace-only after stripping, the send is rejected locally and no
request is issued; the project window's `send_prompt` shows a warning
dialog, while the workshop chat's `send_message` rejects silently, leaving
the conversation history unchanged. -/
theorem c9_amended (input : String) (history : List Workshop.ChatMessage)
    (visible : Bool) (pt ct : List TWItem) (refsOf : String → List String)
    (cfgText : Option String) (est : List Workshop.ChatMessage → Nat)
    (summ : List Workshop.ChatMessage → String)
    (respond : List Workshop.ChatMessage → String)
    (h : pyStrip input = "") :
    ProjectWindow.send_prompt_guard input = { warned := true, requestIssued := false }
    ∧ Workshop.send_message input history visible pt ct refsOf cfgText est summ respond
      = { issuedRequest := false, warned := false, payload := [], history := history } := by
  constructor
  · simp [ProjectWindow.send_prompt_guard, h]
  · simp [Workshop.send_message, h]

theorem c9_amended_witness :
    ProjectWindow.send_prompt_guard " " = { warned := true, requestIssued := false }
    ∧ Workshop.send_message " " [] false [] [] (fun _ => []) none
        (fun _ => 0) (fun _ => "") (fun _ => "")
      = { issuedRequest := false, warned := false, payload := [], history := [] } :=
  c9_amended " " [] false [] [] (fun _ => []) none
    (fun _ => 0) (fun _ => "") (fun _ => "") (by decide)

/-- Claim C10 (confirmed): checked context selections are appended to the
outgoing user message only when the context panel is visible at send time;
when the panel is hidden the message is left unchanged and the whole
`send_message` result is independent of the tree selections, which are
silently omitted from the request payload. -/
theorem c10_context_requires_visible_panel :
    (∀ (pt ct : List TWItem) (m : String),
        Workshop.contextAugmented false pt ct m = m)
    ∧ (∀ (pt ct : List TWItem) (m : String),
        Workshop.get_selected_contexts pt ct ≠ [] →
        Workshop.contextAugmented true pt ct m
          = m ++ "\nContext:\n"
              ++ String.intercalate "\n" (Workshop.get_selected_contexts pt ct))
    ∧ (∀ (input : String) (history : List Workshop.ChatMessage)
        (pt ct pt2 ct2 : List TWItem) (refsOf : String → List String)
        (cfgText : Option String) (est : List Workshop.ChatMessage → Nat)
        (summ : List Workshop.ChatMessage → String)
        (respond : List Workshop.ChatMessage → String),
        Workshop.send_message input history false pt ct refsOf cfgText est summ respond
          = Workshop.send_message input history false pt2 ct2 refsOf cfgText est summ respond) := by
  refine ⟨fun pt ct m => rfl, ?_, ?_⟩
  · intro pt ct m h
    have hb : (Workshop.get_selected_contexts pt ct != []) = true := by
      simpa [bne_iff_ne] using h
    simp [Workshop.contextAugmented, hb]
  · intro input history pt ct pt2 ct2 refsOf cfgText est summ respond
    rfl

/-- A compendium tree whose single entry is checked. -/
def checkedCompTree : List TWItem :=
  [.mk "People" { defaultItemFlags with userCheckable := false }
      CheckState.unchecked .nodata
      [.mk "Alice" { enabled := true, userCheckable := true }
          CheckState.checked .nodata []]]

theorem c10_witness :
    Workshop.contextAugmented true [] checkedCompTree "hi"
      = "hi" ++ "\nContext:\n"
          ++ String.intercalate "\n" (Workshop.get_selected_contexts [] checkedCompTree) :=
  (c10_context_requires_visible_panel).2.1 [] checkedCompTree "hi" (by decide)
